import Mathlib

/-!
Shallow embedding of the pet-grooming guest-book tool (`src/main.py`).

Python strings are modelled as `List Char`.  `str.strip()` is `pyStrip`
(whitespace trimmed from both ends), `str.isdigit()` is `Char.isDigit`
(decimal digits; the Unicode-digit extension of Python's `isdigit` is
irrelevant to every property below), `str.lower()` is `Char.toLower`
character-wise.  The filesystem touched by the submission handler is
modelled explicitly as the set of created directories, written image
files and the Excel log; `on_run` is the submission handler
`DogPhotoTool.on_run`, with the fallible external operations (the two
PIL image saves and the final workbook save) driven by boolean flags in
`Env` standing for "this call did not raise".  Exceptions raised by
those operations are caught by the handler's top-level `except` block
and surface as the `Err.unexpected` outcome.
-/

set_option maxRecDepth 8000

namespace GuestBook

/-- Python strings, modelled as lists of characters. -/
abbrev Str := List Char

def isSpaceChar (c : Char) : Bool := c.isWhitespace

/-- Python `str.strip()`: whitespace dropped from both ends. -/
def pyStrip (s : Str) : Str :=
  ((s.dropWhile isSpaceChar).reverse.dropWhile isSpaceChar).reverse

/-- Python `int(...)` on a digit-only string. -/
def natOfDigits (s : Str) : Nat :=
  s.foldl (fun acc c => acc * 10 + (c.toNat - '0'.toNat)) 0

/-- The forbidden path characters of `sanitize_for_path` (main.py line 84). -/
def invalid_chars : Str := "\\/:*?\"<>|".toList

/-- Embedding of `sanitize_for_path` (main.py lines 82-86): each forbidden
character is replaced by an underscore, then the result is stripped. -/
def sanitize_for_path (name : Str) : Str :=
  pyStrip (name.map (fun ch => if ch ∈ invalid_chars then '_' else ch))

/-- Embedding of `load_breeds_or_die`'s happy path (main.py lines 24-36):
lines are stripped, empties dropped, and the sentinel appended if absent. -/
def sentinelBreed : Str := "기타(직접입력)".toList

def load_breeds (lines : List Str) : List Str :=
  let breeds := (lines.map pyStrip).filter (fun n => !n.isEmpty)
  if sentinelBreed ∈ breeds then breeds else breeds ++ [sentinelBreed]

/-- One Excel cell: the row mixes strings with the integer payment amount. -/
inductive Cell
  | s (v : Str)
  | n (v : Nat)
deriving DecidableEq, Repr

/-- The fixed 13-column header row written by `ensure_excel_file`
(main.py lines 95-111). -/
def headerRow : List Cell :=
  ["기록시각", "고객번호", "보호자 이름", "강아지 이름", "품종",
   "오늘 미용 스타일", "고객 요구사항", "미용 중 특이사항", "애프터 케어",
   "결제금액", "결제상태", "미용 전 사진파일명", "미용 후 사진파일명"].map
    (fun s => Cell.s s.toList)

/-- Embedding of `ensure_excel_file` (main.py lines 89-112): when the file is
absent it is created holding exactly the header row; otherwise untouched.
The sheet title is not modelled; only the rows are. -/
def ensure_excel_file : Option (List (List Cell)) → Option (List (List Cell))
  | none => some [headerRow]
  | some rows => some rows

/-- Filesystem-and-log state visible to the submission handler.  A file is
identified by its folder and its name; contents are not modelled. -/
structure FsState where
  dirs : List Str
  files : List (Str × Str)
  log : Option (List (List Cell))
deriving DecidableEq, Repr

/-- Embedding of `os.makedirs(..., exist_ok=True)` (main.py line 516). -/
def makedirs (d : Str) (st : FsState) : FsState :=
  if d ∈ st.dirs then st else { st with dirs := st.dirs ++ [d] }

/-- Name-level effect of `save_image_copy` (main.py lines 578-593): a file
appears at the destination; an existing file is overwritten in place. -/
def save_image_copy (folder nm : Str) (st : FsState) : FsState :=
  if (folder, nm) ∈ st.files then st else { st with files := st.files ++ [(folder, nm)] }

/-- Which of the fallible external calls succeed during one submission. -/
structure Env where
  beforeOk : Bool
  afterOk : Bool
  appendOk : Bool
deriving DecidableEq, Repr

/-- The raw form fields read by `on_run` (main.py lines 452-505), including
the customer entry's foreground colour, which line 462 consults to decide
whether the placeholder text counts as empty. -/
structure FormInput where
  beforePath : Str
  afterPath : Str
  dogName : Str
  ownerName : Str
  customerRaw : Str
  customerFg : Str
  styleToday : Str
  breedSel : Str
  breedOther : Str
  paymentDisplay : Str
  paymentState : Str
  requirements : Str
  notes : Str
  aftercare : Str
deriving DecidableEq, Repr

def placeholderStr : Str := "010-0000-0000".toList

def grayStr : Str := "gray".toList

/-- Main.py lines 461-463: the stripped customer field, with the unmodified
gray placeholder treated as empty. -/
def effective_customer (inp : FormInput) : Str :=
  let raw := pyStrip inp.customerRaw
  if raw = placeholderStr ∧ inp.customerFg = grayStr then [] else raw

/-- Main.py line 474: a character the customer identifier may not contain. -/
def badCharB (ch : Char) : Bool := !(ch.isDigit || ch == '-' || ch == ' ')

/-- Distinct rejection reasons of `on_run`; each constructor corresponds to
one messagebox site, `unexpected` to the top-level `except` handler. -/
inductive Err
  | missingPhotos
  | missingIdentity
  | customerNoDigit
  | customerBadChar
  | missingBreedText
  | invalidPayment
  | nameTooLong
  | unexpected
deriving DecidableEq, Repr

/-- The record assembled by a successful submission. -/
structure Record where
  customerNo : Str
  ownerName : Str
  dogName : Str
  breed : Str
  styleToday : Str
  requirements : Str
  notes : Str
  aftercare : Str
  paymentAmount : Nat
  paymentState : Str
  nameBefore : Str
  nameAfter : Str
  recordTime : Str
  destFolder : Str
deriving DecidableEq, Repr

/-- Ordered row appended to the log (main.py lines 548-562). -/
def row_of (r : Record) : List Cell :=
  [Cell.s r.recordTime, Cell.s r.customerNo, Cell.s r.ownerName, Cell.s r.dogName,
   Cell.s r.breed, Cell.s r.styleToday, Cell.s r.requirements, Cell.s r.notes,
   Cell.s r.aftercare, Cell.n r.paymentAmount, Cell.s r.paymentState,
   Cell.s r.nameBefore, Cell.s r.nameAfter]

/-- Basename part of a path: everything after the last separator. -/
def base_name (p : Str) : Str :=
  (p.reverse.takeWhile (fun c => !(c == '/' || c == '\\'))).reverse

/-- Python `os.path.splitext(p)[1]`: the extension (dot included) of the
basename, where leading dots of the basename never start an extension. -/
def splitext_ext (p : Str) : Str :=
  let core := (base_name p).dropWhile (fun c => c == '.')
  if '.' ∈ core then '.' :: (core.reverse.takeWhile (fun c => !(c == '.'))).reverse
  else []

def lowerStr (s : Str) : Str := s.map Char.toLower

def sepStr : Str := " - ".toList

/-- Main.py lines 480-487: the recorded breed. -/
def derived_breed (inp : FormInput) : Str :=
  if pyStrip inp.breedSel = sentinelBreed then pyStrip inp.breedOther
  else pyStrip inp.breedSel

/-- Main.py lines 490-498: the parsed payment amount. -/
def derived_payment (inp : FormInput) : Nat :=
  if pyStrip inp.paymentDisplay = [] then 0
  else natOfDigits ((pyStrip inp.paymentDisplay).filter Char.isDigit)

/-- Main.py line 500: the payment status label. -/
def payment_label (inp : FormInput) : Str :=
  if inp.paymentState = "paid".toList then "결제완료".toList else "입금 전".toList

/-- Main.py lines 511-512: the sanitized per-customer folder name. -/
def folder_name (inp : FormInput) : Str :=
  sanitize_for_path ((effective_customer inp).filter Char.isDigit ++ sepStr ++
    pyStrip inp.ownerName ++ sepStr ++ pyStrip inp.dogName)

/-- Main.py lines 519-520: the sanitized shared filename stem. -/
def stem_name (inp : FormInput) (dt : Str) : Str :=
  sanitize_for_path ((effective_customer inp).filter Char.isDigit ++ sepStr ++
    pyStrip inp.ownerName ++ sepStr ++ pyStrip inp.dogName ++ sepStr ++ dt)

/-- Main.py line 526: the before-photo destination filename. -/
def name_before (inp : FormInput) (dt : Str) : Str :=
  stem_name inp dt ++ " - 미용전".toList ++ lowerStr (splitext_ext inp.beforePath)

/-- Main.py line 527: the after-photo destination filename. -/
def name_after (inp : FormInput) (dt : Str) : Str :=
  stem_name inp dt ++ " - 미용후".toList ++ lowerStr (splitext_ext inp.afterPath)

/-- The record a successful run assembles (main.py lines 477-562). -/
def derived_record (inp : FormInput) (dt rt : Str) : Record :=
  { customerNo := (effective_customer inp).filter Char.isDigit
    ownerName := pyStrip inp.ownerName
    dogName := pyStrip inp.dogName
    breed := derived_breed inp
    styleToday := pyStrip inp.styleToday
    requirements := pyStrip inp.requirements
    notes := pyStrip inp.notes
    aftercare := pyStrip inp.aftercare
    paymentAmount := derived_payment inp
    paymentState := payment_label inp
    nameBefore := name_before inp dt
    nameAfter := name_after inp dt
    recordTime := rt
    destFolder := folder_name inp }

/-- State after a fully successful submission. -/
def success_state (inp : FormInput) (dt rt : Str) (st : FsState) : FsState :=
  let st1 := makedirs (folder_name inp) st
  let st2 := save_image_copy (folder_name inp) (name_before inp dt) st1
  let st3 := save_image_copy (folder_name inp) (name_after inp dt) st2
  { st3 with
    log := some ((ensure_excel_file st3.log).getD [] ++ [row_of (derived_record inp dt rt)]) }

/-- The six validation guards of `on_run` (main.py lines 455-498), in source
order, short-circuiting on the first failure.  They all precede every
filesystem effect of the handler. -/
def validate (inp : FormInput) : Except Err Unit :=
  if inp.beforePath = [] ∨ inp.afterPath = [] then .error .missingPhotos
  else if pyStrip inp.dogName = [] ∨ pyStrip inp.ownerName = [] ∨ effective_customer inp = []
    then .error .missingIdentity
  else if (effective_customer inp).filter Char.isDigit = [] then .error .customerNoDigit
  else if (effective_customer inp).any badCharB = true then .error .customerBadChar
  else if pyStrip inp.breedSel = sentinelBreed ∧ pyStrip inp.breedOther = [] then
    .error .missingBreedText
  else if pyStrip inp.paymentDisplay ≠ [] ∧ (pyStrip inp.paymentDisplay).filter Char.isDigit = []
    then .error .invalidPayment
  else .ok ()

/-- Embedding of the submission handler `DogPhotoTool.on_run`
(main.py lines 449-576).  The guards appear in source order; `dt` is the
minute timestamp `now.strftime` of line 509 and `rt` the record timestamp of
line 546.  Note that the destination folder is created (line 516) before the
filename-length check (line 529). -/
def on_run (inp : FormInput) (env : Env) (dt rt : Str) (st : FsState) :
    Except Err Record × FsState :=
  match validate inp with
  | .error e => (.error e, st)
  | .ok _ =>
    let st1 := makedirs (folder_name inp) st
    if (name_before inp dt).length > 100 ∨ (name_after inp dt).length > 100 then
      (.error .nameTooLong, st1)
    else if env.beforeOk = false then (.error .unexpected, st1)
    else
      let st2 := save_image_copy (folder_name inp) (name_before inp dt) st1
      if env.afterOk = false then (.error .unexpected, st2)
      else
        let st3 := save_image_copy (folder_name inp) (name_after inp dt) st2
        let log1 := (ensure_excel_file st3.log).getD []
        if env.appendOk = false then (.error .unexpected, { st3 with log := some log1 })
        else
          (.ok (derived_record inp dt rt),
           { st3 with log := some (log1 ++ [row_of (derived_record inp dt rt)]) })

/-- Whether a run outcome is a rejection (any messagebox error path). -/
def isErr : Except Err Record × FsState → Bool
  | (.error _, _) => true
  | (.ok _, _) => false

instance : DecidableEq (Except Err Record) := fun x y =>
  match x, y with
  | .error a, .error b =>
      if h : a = b then isTrue (by rw [h]) else isFalse (fun hc => h (by injection hc))
  | .error _, .ok _ => isFalse (fun hc => Except.noConfusion hc)
  | .ok _, .error _ => isFalse (fun hc => Except.noConfusion hc)
  | .ok a, .ok b =>
      if h : a = b then isTrue (by rw [h]) else isFalse (fun hc => h (by injection hc))

/-! ### Concrete scenario used by the witnesses and counterexamples -/

/-- A fully valid submission: owner "O", dog "D", phone "010-1234-5678". -/
def inpOk : FormInput :=
  { beforePath := "a.jpg".toList
    afterPath := "b.PNG".toList
    dogName := "D".toList
    ownerName := "O".toList
    customerRaw := "010-1234-5678".toList
    customerFg := "black".toList
    styleToday := []
    breedSel := "Poodle".toList
    breedOther := []
    paymentDisplay := []
    paymentState := "paid".toList
    requirements := []
    notes := []
    aftercare := [] }

def envAllOk : Env := { beforeOk := true, afterOk := true, appendOk := true }

def dt0 : Str := "202512071434".toList

def rt0 : Str := "2025-12-07 14:34".toList

def st0 : FsState := { dirs := [], files := [], log := none }

def folderOkStr : Str := "01012345678 - O - D".toList

def nbOk : Str := "01012345678 - O - D - 202512071434 - 미용전.jpg".toList

def naOk : Str := "01012345678 - O - D - 202512071434 - 미용후.png".toList

def recOk : Record :=
  { customerNo := "01012345678".toList
    ownerName := "O".toList
    dogName := "D".toList
    breed := "Poodle".toList
    styleToday := []
    requirements := []
    notes := []
    aftercare := []
    paymentAmount := 0
    paymentState := "결제완료".toList
    nameBefore := nbOk
    nameAfter := naOk
    recordTime := rt0
    destFolder := folderOkStr }

def stOkFinal : FsState :=
  { dirs := [folderOkStr]
    files := [(folderOkStr, nbOk), (folderOkStr, naOk)]
    log := some [headerRow, row_of recOk] }

/-- Validation guards that precede the payment check, in source order. -/
def passes_pre_payment (inp : FormInput) : Prop :=
  ¬(inp.beforePath = [] ∨ inp.afterPath = []) ∧
  ¬(pyStrip inp.dogName = [] ∨ pyStrip inp.ownerName = [] ∨ effective_customer inp = []) ∧
  ¬((effective_customer inp).filter Char.isDigit = []) ∧
  ¬((effective_customer inp).any badCharB = true) ∧
  ¬(pyStrip inp.breedSel = sentinelBreed ∧ pyStrip inp.breedOther = [])

/-- All validation guards up to and including the payment check. -/
def passes_validation (inp : FormInput) : Prop :=
  passes_pre_payment inp ∧
  ¬(pyStrip inp.paymentDisplay ≠ [] ∧ (pyStrip inp.paymentDisplay).filter Char.isDigit = [])

/-- Every guard of `on_run`, the filename-length check included. -/
def valid_input (inp : FormInput) (dt : Str) : Prop :=
  passes_validation inp ∧
  ¬((name_before inp dt).length > 100 ∨ (name_after inp dt).length > 100)

/-- Customer identifier with letters: rejected at the character-set check. -/
def inpC1bad : FormInput := { inpOk with customerRaw := "ab-12".toList }

def inpC5bad : FormInput := { inpOk with customerRaw := "12a".toList }

/-- Submission whose derived filenames exceed 100 characters. -/
def inpLong : FormInput := { inpOk with dogName := List.replicate 90 'a' }

def folderLongStr : Str := "01012345678 - O - ".toList ++ List.replicate 90 'a'

def stLongFinal : FsState := { st0 with dirs := [folderLongStr] }

/-- Environment where the after-image save raises. -/
def envAfterFail : Env := { beforeOk := true, afterOk := false, appendOk := true }

def stC4Final : FsState :=
  { dirs := [folderOkStr], files := [(folderOkStr, nbOk)], log := none }

/-- Sentinel breed selected with blank free-text breed. -/
def inpBreedBad : FormInput :=
  { inpOk with breedSel := "기타(직접입력)".toList, breedOther := "  ".toList }

/-- Sentinel breed selected with free-text breed "Mix". -/
def inpMix : FormInput :=
  { inpOk with breedSel := "기타(직접입력)".toList, breedOther := "Mix".toList }

/-- Payment field that contains no digit at all. -/
def inpPayBad : FormInput := { inpOk with paymentDisplay := "abc".toList }

/-- Payment field "-500": the sign is discarded, 500 is recorded. -/
def inpC9 : FormInput := { inpOk with paymentDisplay := "-500".toList }

def recC9 : Record := { recOk with paymentAmount := 500 }

def stC9Final : FsState := { stOkFinal with log := some [headerRow, row_of recC9] }

/-- Customer field holding the placeholder text, typed (foreground black). -/
def inpC10 : FormInput := { inpOk with customerRaw := "010-0000-0000".toList }

/-- The extensions `set_photo` accepts (main.py lines 427-429); `on_run` only
ever sees photo paths that passed that check. -/
def allowedExts : List Str := [".jpg".toList, ".jpeg".toList, ".png".toList]

instance (inp : FormInput) : Decidable (passes_pre_payment inp) := by
  unfold passes_pre_payment; infer_instance

instance (inp : FormInput) : Decidable (passes_validation inp) := by
  unfold passes_validation; infer_instance

instance (inp : FormInput) (dt : Str) : Decidable (valid_input inp dt) := by
  unfold valid_input; infer_instance

/-! ### Helper lemmas about the string utilities -/

theorem dropWhile_idem (p : Char → Bool) (l : Str) :
    (l.dropWhile p).dropWhile p = l.dropWhile p := by
  induction l with
  | nil => rfl
  | cons a l ih =>
    by_cases h : p a
    · simp [List.dropWhile_cons_of_pos h, ih]
    · simp [List.dropWhile_cons_of_neg h]

theorem dropWhile_eq_self_of_pfx {p : Char → Bool} {t u : Str}
    (hpre : t <+: u) (hu : u.dropWhile p = u) : t.dropWhile p = t := by
  cases t with
  | nil => rfl
  | cons a t' =>
    obtain ⟨r, hr⟩ := hpre
    rw [← hr, List.cons_append] at hu
    by_cases h : p a
    · rw [List.dropWhile_cons_of_pos h] at hu
      have hlen : ((t' ++ r).dropWhile p).length ≤ (t' ++ r).length :=
        (List.dropWhile_suffix p).sublist.length_le
      have hlen2 := congrArg List.length hu
      rw [List.length_cons] at hlen2
      omega
    · rw [List.dropWhile_cons_of_neg h]

theorem pyStrip_idem (s : Str) : pyStrip (pyStrip s) = pyStrip s := by
  unfold pyStrip
  have hu_fix : (s.dropWhile isSpaceChar).dropWhile isSpaceChar = s.dropWhile isSpaceChar :=
    dropWhile_idem isSpaceChar s
  have htpre :
      ((s.dropWhile isSpaceChar).reverse.dropWhile isSpaceChar).reverse <+:
        s.dropWhile isSpaceChar := by
    have hs : (s.dropWhile isSpaceChar).reverse.dropWhile isSpaceChar <:+
        (s.dropWhile isSpaceChar).reverse := List.dropWhile_suffix isSpaceChar
    have := List.reverse_prefix.mpr hs
    rwa [List.reverse_reverse] at this
  have ht_fix := dropWhile_eq_self_of_pfx htpre hu_fix
  rw [ht_fix]
  have hrev :
      (((s.dropWhile isSpaceChar).reverse.dropWhile isSpaceChar).reverse).reverse.dropWhile
          isSpaceChar =
        ((s.dropWhile isSpaceChar).reverse.dropWhile isSpaceChar).reverse.reverse := by
    rw [List.reverse_reverse]
    exact dropWhile_idem isSpaceChar _
  rw [hrev, List.reverse_reverse]

theorem mem_pyStrip {c : Char} {s : Str} (h : c ∈ pyStrip s) : c ∈ s := by
  unfold pyStrip at h
  rw [List.mem_reverse] at h
  have h1 := (List.dropWhile_suffix isSpaceChar).subset h
  rw [List.mem_reverse] at h1
  exact (List.dropWhile_suffix isSpaceChar).subset h1

/-- Every value the breed list loader produces is already stripped, so the
strip `on_run` applies to the selected value (line 480) is the identity. -/
theorem load_breeds_strip {b : Str} {lines : List Str}
    (h : b ∈ load_breeds lines) : pyStrip b = b := by
  unfold load_breeds at h
  have hmem : b ∈ (lines.map pyStrip).filter (fun n => !n.isEmpty) ∨ b = sentinelBreed := by
    by_cases hs : sentinelBreed ∈ (lines.map pyStrip).filter (fun n => !n.isEmpty)
    · simp only [hs, if_pos] at h
      exact Or.inl h
    · simp only [hs, if_neg, not_false_iff, List.mem_append, List.mem_singleton] at h
      simpa using h
  rcases hmem with hmem | rfl
  · have := List.mem_filter.mp hmem
    obtain ⟨x, _, rfl⟩ := List.mem_map.mp this.1
    exact pyStrip_idem x
  · decide

/-! ### Helper lemmas about the filesystem model -/

theorem makedirs_log (d : Str) (st : FsState) : (makedirs d st).log = st.log := by
  unfold makedirs; split <;> rfl

theorem makedirs_files (d : Str) (st : FsState) : (makedirs d st).files = st.files := by
  unfold makedirs; split <;> rfl

theorem makedirs_dirs_pfx (d : Str) (st : FsState) : st.dirs <+: (makedirs d st).dirs := by
  unfold makedirs
  split
  · exact List.prefix_refl _
  · exact List.prefix_append _ _

theorem save_log (f nm : Str) (st : FsState) : (save_image_copy f nm st).log = st.log := by
  unfold save_image_copy; split <;> rfl

theorem save_dirs (f nm : Str) (st : FsState) : (save_image_copy f nm st).dirs = st.dirs := by
  unfold save_image_copy; split <;> rfl

theorem save_files_pfx (f nm : Str) (st : FsState) :
    st.files <+: (save_image_copy f nm st).files := by
  unfold save_image_copy
  split
  · exact List.prefix_refl _
  · exact List.prefix_append _ _

/-! ### Shape lemmas for the submission handler -/

/-- The validation stage succeeds exactly when every guard passes. -/
theorem validate_ok_iff (inp : FormInput) :
    validate inp = .ok () ↔ passes_validation inp := by
  unfold validate passes_validation passes_pre_payment
  split_ifs with h1 h2 h3 h4 h5 h6 <;> simp_all

/-- Each validation failure is reported before any filesystem effect. -/
theorem on_run_validate_error (inp : FormInput) (env : Env) (dt rt : Str) (st : FsState)
    (e : Err) (hv : validate inp = .error e) :
    on_run inp env dt rt st = (.error e, st) := by
  unfold on_run
  rw [hv]

/-- A successful run returns exactly the derived record, implies every
validation guard, and leaves exactly the success state. -/
theorem on_run_ok_shape (inp : FormInput) (env : Env) (dt rt : Str) (st : FsState)
    (r : Record) (st' : FsState) (h : on_run inp env dt rt st = (.ok r, st')) :
    r = derived_record inp dt rt ∧ valid_input inp dt ∧ st' = success_state inp dt rt st := by
  unfold on_run at h
  cases hv : validate inp with
  | error e =>
    rw [hv] at h
    exact absurd h (by simp)
  | ok u =>
    rw [hv] at h
    dsimp only at h
    split_ifs at h with hlen hb ha hap <;>
      first
        | (injection h with he hs
           exact Except.noConfusion he)
        | (injection h with he hs
           injection he with hr
           cases u
           exact ⟨hr.symm, ⟨(validate_ok_iff inp).mp hv, hlen⟩, hs.symm⟩)

/-- Any failing run leaves the log's rows unchanged (at most the empty
log file with its header row is created), and never removes a file or a
directory that existed before. -/
theorem on_run_error_growth (inp : FormInput) (env : Env) (dt rt : Str) (st : FsState)
    (e : Err) (st' : FsState) (h : on_run inp env dt rt st = (.error e, st')) :
    (st'.log = st.log ∨ (st.log = none ∧ st'.log = some [headerRow])) ∧
    st.files <+: st'.files ∧ st.dirs <+: st'.dirs := by
  unfold on_run at h
  cases hv : validate inp with
  | error e2 =>
    -- validation failures happen before any filesystem effect
    rw [hv] at h
    dsimp only at h
    injection h with he hs
    subst hs
    exact ⟨Or.inl rfl, List.prefix_refl _, List.prefix_refl _⟩
  | ok u =>
    rw [hv] at h
    dsimp only at h
    split_ifs at h with hlen hb ha hap
    -- filename-length failure and before-save failure: folder created only
    · injection h with he hs
      subst hs
      refine ⟨Or.inl (makedirs_log _ _), ?_, makedirs_dirs_pfx _ _⟩
      rw [makedirs_files]
    · injection h with he hs
      subst hs
      refine ⟨Or.inl (makedirs_log _ _), ?_, makedirs_dirs_pfx _ _⟩
      rw [makedirs_files]
    -- after-image save failure: the before image persists
    · injection h with he hs
      subst hs
      refine ⟨Or.inl ?_, ?_, ?_⟩
      · rw [save_log, makedirs_log]
      · have hp := save_files_pfx (folder_name inp) (name_before inp dt)
          (makedirs (folder_name inp) st)
        rwa [makedirs_files] at hp
      · rw [save_dirs]
        exact makedirs_dirs_pfx _ _
    -- workbook-save failure: both images persist, only the header was created
    · injection h with he hs
      subst hs
      refine ⟨?_, ?_, ?_⟩
      · show some ((ensure_excel_file
            (save_image_copy (folder_name inp) (name_after inp dt)
              (save_image_copy (folder_name inp) (name_before inp dt)
                (makedirs (folder_name inp) st))).log).getD []) = st.log ∨ _
        rw [save_log, save_log, makedirs_log]
        cases hlog : st.log with
        | none => exact Or.inr ⟨rfl, by simp [ensure_excel_file]⟩
        | some rows => exact Or.inl (by simp [ensure_excel_file])
      · show st.files <+: (save_image_copy (folder_name inp) (name_after inp dt)
          (save_image_copy (folder_name inp) (name_before inp dt)
            (makedirs (folder_name inp) st))).files
        have p1 := save_files_pfx (folder_name inp) (name_before inp dt)
          (makedirs (folder_name inp) st)
        rw [makedirs_files] at p1
        exact p1.trans (save_files_pfx _ _ _)
      · show st.dirs <+: (save_image_copy (folder_name inp) (name_after inp dt)
          (save_image_copy (folder_name inp) (name_before inp dt)
            (makedirs (folder_name inp) st))).dirs
        rw [save_dirs, save_dirs]
        exact makedirs_dirs_pfx _ _
    -- the final branch is a success, contradicting the error hypothesis
    · exact absurd h (by simp)

/-- Any failed guard means the run rejects without touching the state. -/
theorem on_run_of_validate_err (inp : FormInput) (env : Env) (dt rt : Str) (st : FsState)
    (h : ¬ passes_validation inp) :
    isErr (on_run inp env dt rt st) = true ∧ (on_run inp env dt rt st).2 = st := by
  cases hv : validate inp with
  | error e =>
    rw [on_run_validate_error inp env dt rt st e hv]
    exact ⟨rfl, rfl⟩
  | ok u =>
    cases u
    exact absurd ((validate_ok_iff inp).mp hv) h

/-- Under valid earlier guards, an all-non-digit payment field is rejected
with the payment-specific reason. -/
theorem validate_invalid_payment (inp : FormInput) (hp : passes_pre_payment inp)
    (hbad : pyStrip inp.paymentDisplay ≠ [] ∧
      (pyStrip inp.paymentDisplay).filter Char.isDigit = []) :
    validate inp = .error .invalidPayment := by
  obtain ⟨h1, h2, h3, h4, h5⟩ := hp
  unfold validate
  rw [if_neg h1, if_neg h2, if_neg h3, if_neg h4, if_neg h5, if_pos hbad]

/-- The validation stage never emits the two post-validation reasons. -/
theorem validate_error_mem (inp : FormInput) (e : Err) (h : validate inp = .error e) :
    e = .missingPhotos ∨ e = .missingIdentity ∨ e = .customerNoDigit ∨
    e = .customerBadChar ∨ e = .missingBreedText ∨ e = .invalidPayment := by
  unfold validate at h
  split_ifs at h <;> (injection h with he; subst he; simp)

/-- When validation passes and a derived filename is over 100 characters the
run stops with the length reason, the folder already created. -/
theorem on_run_name_too_long (inp : FormInput) (env : Env) (dt rt : Str) (st : FsState)
    (hp : passes_validation inp)
    (hl : (name_before inp dt).length > 100 ∨ (name_after inp dt).length > 100) :
    on_run inp env dt rt st = (.error .nameTooLong, makedirs (folder_name inp) st) := by
  unfold on_run
  rw [(validate_ok_iff inp).mpr hp]
  dsimp only
  rw [if_pos hl]

/-- Characters surviving the customer character-set guard. -/
theorem allowed_chars_of_valid {inp : FormInput}
    (h4 : ¬((effective_customer inp).any badCharB = true)) :
    ∀ c ∈ effective_customer inp, c.isDigit = true ∨ c = '-' ∨ c = ' ' := by
  intro c hc
  by_contra hcon
  push_neg at hcon
  apply h4
  rw [List.any_eq_true]
  refine ⟨c, hc, ?_⟩
  have hd : c.isDigit = false := by
    cases hq : c.isDigit
    · rfl
    · exact absurd hq hcon.1
  simp [badCharB, hd, hcon.2.1, hcon.2.2]

/-- No character of a sanitized name is path-forbidden. -/
theorem sanitize_no_invalid (s : Str) : ∀ c ∈ sanitize_for_path s, c ∉ invalid_chars := by
  intro c hc
  have hm := mem_pyStrip hc
  obtain ⟨a, -, rfl⟩ := List.mem_map.mp hm
  by_cases ha : a ∈ invalid_chars
  · rw [if_pos ha]
    decide
  · rwa [if_neg ha]

/-! ### Claims -/

/-- Claim C1, counterexample: an identifier mixing letters with digits and
hyphens never passes validation — it is rejected at the character-set check
(main.py line 474) with the state untouched, so no customer number is ever
derived for it. -/
theorem C1_counterexample :
    ("ab-12".toList.any Char.isAlpha = true) ∧
    inpC1bad.customerRaw = "ab-12".toList ∧
    on_run inpC1bad envAllOk dt0 rt0 st0 = (.error .customerBadChar, st0) := by
  decide

/-- Claim C1, amended: for every submission that passes validation, the
derived customer number is exactly the in-order subsequence of the digit
characters of the (effective) identifier; accepted identifiers contain only
digits, hyphens and spaces, so letter-bearing identifiers never get here. -/
theorem C1_digit_subsequence (inp : FormInput) (env : Env) (dt rt : Str) (st : FsState)
    (r : Record) (st' : FsState) (h : on_run inp env dt rt st = (.ok r, st')) :
    r.customerNo = (effective_customer inp).filter Char.isDigit ∧
    List.Sublist r.customerNo (effective_customer inp) ∧
    (∀ c ∈ r.customerNo, c.isDigit = true) ∧
    (∀ c ∈ effective_customer inp, c.isDigit = true ∨ c = '-' ∨ c = ' ') := by
  obtain ⟨hr, hval, -⟩ := on_run_ok_shape inp env dt rt st r st' h
  subst hr
  refine ⟨rfl, List.filter_sublist _, ?_, ?_⟩
  · intro c hc
    exact List.of_mem_filter hc
  · exact allowed_chars_of_valid hval.1.1.2.2.2.1

/-- Witness for C1 at the concrete valid submission. -/
theorem C1_digit_subsequence_witness :
    recOk.customerNo = (effective_customer inpOk).filter Char.isDigit ∧
    List.Sublist recOk.customerNo (effective_customer inpOk) := by
  have h := C1_digit_subsequence inpOk envAllOk dt0 rt0 st0 recOk stOkFinal (by decide)
  exact ⟨h.1, h.2.1⟩

/-- Claim C2, counterexample: sanitization does not remove the forbidden
characters — it replaces each one with an underscore, so `"a:b"` becomes
`"a_b"` and not the digit-removal result `"ab"`. -/
theorem C2_counterexample :
    sanitize_for_path ("a:b".toList) = "a_b".toList ∧
    ("a:b".toList).filter (fun c => !invalid_chars.contains c) = "ab".toList ∧
    sanitize_for_path ("a:b".toList) ≠
      ("a:b".toList).filter (fun c => !invalid_chars.contains c) := by
  decide

/-- Claim C2, amended: sanitization replaces every forbidden character
`\\ / : * ? " < > |` with an underscore and trims surrounding whitespace;
consequently no sanitized name contains a forbidden character, and neither
do the generated folder name and (for the photo extensions `set_photo`
admits) the two generated filenames. -/
theorem C2_sanitize_replaces (s : Str) (inp : FormInput) (env : Env) (dt rt : Str)
    (st : FsState) :
    sanitize_for_path s = pyStrip (s.map (fun ch => if ch ∈ invalid_chars then '_' else ch)) ∧
    (∀ c ∈ sanitize_for_path s, c ∉ invalid_chars) ∧
    pyStrip (sanitize_for_path s) = sanitize_for_path s ∧
    (∀ r st', on_run inp env dt rt st = (.ok r, st') →
      (∀ c ∈ r.destFolder, c ∉ invalid_chars) ∧
      (lowerStr (splitext_ext inp.beforePath) ∈ allowedExts →
        ∀ c ∈ r.nameBefore, c ∉ invalid_chars) ∧
      (lowerStr (splitext_ext inp.afterPath) ∈ allowedExts →
        ∀ c ∈ r.nameAfter, c ∉ invalid_chars)) := by
  refine ⟨rfl, sanitize_no_invalid s, pyStrip_idem _, ?_⟩
  intro r st' h
  obtain ⟨hr, -, -⟩ := on_run_ok_shape inp env dt rt st r st' h
  subst hr
  have hsuffix1 : ∀ c ∈ " - 미용전".toList, c ∉ invalid_chars := by decide
  have hsuffix2 : ∀ c ∈ " - 미용후".toList, c ∉ invalid_chars := by decide
  have hext : ∀ ext ∈ allowedExts, ∀ c ∈ ext, c ∉ invalid_chars := by decide
  refine ⟨sanitize_no_invalid _, ?_, ?_⟩
  · intro hmem c hc
    rcases List.mem_append.mp hc with hc | hc
    · rcases List.mem_append.mp hc with hc | hc
      · exact sanitize_no_invalid _ c hc
      · exact hsuffix1 c hc
    · exact hext _ hmem c hc
  · intro hmem c hc
    rcases List.mem_append.mp hc with hc | hc
    · rcases List.mem_append.mp hc with hc | hc
      · exact sanitize_no_invalid _ c hc
      · exact hsuffix2 c hc
    · exact hext _ hmem c hc

/-- Witness for C2 at a concrete input with surrounding blanks and a colon. -/
theorem C2_sanitize_replaces_witness :
    'a' ∉ invalid_chars ∧
    pyStrip (sanitize_for_path (" a:b ".toList)) = sanitize_for_path (" a:b ".toList) := by
  have h := C2_sanitize_replaces (" a:b ".toList) inpOk envAllOk dt0 rt0 st0
  exact ⟨h.2.1 'a' (by decide), h.2.2.1⟩

/-- Claim C3, counterexample: a validated submission whose filenames exceed
100 characters is rejected, but not free of side effects — the per-customer
destination folder has already been created (main.py line 516 precedes the
length check of line 529), so the filesystem state differs. -/
theorem C3_counterexample :
    on_run inpLong envAllOk dt0 rt0 st0 = (.error .nameTooLong, stLongFinal) ∧
    stLongFinal ≠ st0 ∧ stLongFinal.dirs = [folderLongStr] := by
  decide

/-- Claim C3, amended: when either derived filename exceeds 100 characters
the validated submission is rejected, no image file is written and the log
store is untouched; the only state change is that the destination folder has
already been created. -/
theorem C3_length_reject (inp : FormInput) (env : Env) (dt rt : Str) (st : FsState) :
    (∀ st', on_run inp env dt rt st = (.error .nameTooLong, st') →
      st'.files = st.files ∧ st'.log = st.log ∧ st' = makedirs (folder_name inp) st) ∧
    (passes_validation inp →
      ((name_before inp dt).length > 100 ∨ (name_after inp dt).length > 100) →
      on_run inp env dt rt st = (.error .nameTooLong, makedirs (folder_name inp) st)) := by
  constructor
  · intro st' h
    unfold on_run at h
    cases hv : validate inp with
    | error e2 =>
      rw [hv] at h
      dsimp only at h
      injection h with he hs
      injection he with he2
      rcases validate_error_mem inp e2 hv with rfl | rfl | rfl | rfl | rfl | rfl <;>
        exact absurd he2 (by simp)
    | ok u =>
      rw [hv] at h
      dsimp only at h
      split_ifs at h with hlen hb ha hap
      · injection h with he hs
        subst hs
        exact ⟨makedirs_files _ _, makedirs_log _ _, rfl⟩
      · injection h with he hs
        injection he with he2
        exact absurd he2 (by simp)
      · injection h with he hs
        injection he with he2
        exact absurd he2 (by simp)
      · injection h with he hs
        injection he with he2
        exact absurd he2 (by simp)
      · injection h with he hs
        exact Except.noConfusion he
  · intro hp hl
    exact on_run_name_too_long inp env dt rt st hp hl

/-- Witness for C3 at the concrete over-long submission. -/
theorem C3_length_reject_witness :
    on_run inpLong envAllOk dt0 rt0 st0 =
      (.error .nameTooLong, makedirs (folder_name inpLong) st0) ∧
    (makedirs (folder_name inpLong) st0).files = st0.files ∧
    (makedirs (folder_name inpLong) st0).log = st0.log := by
  have h2 := (C3_length_reject inpLong envAllOk dt0 rt0 st0).2 (by decide) (by decide)
  have h1 := (C3_length_reject inpLong envAllOk dt0 rt0 st0).1 _ h2
  exact ⟨h2, h1.1, h1.2.1⟩

/-- Claim C4, counterexample: when the after-image write fails, the whole
submission aborts but the filesystem is not as before — the folder was
created and the before image file persists. -/
theorem C4_counterexample :
    on_run inpOk envAfterFail dt0 rt0 st0 = (.error .unexpected, stC4Final) ∧
    stC4Final.files = [(folderOkStr, nbOk)] ∧
    stC4Final ≠ st0 := by
  decide

/-- Claim C4, amended: any step failure aborts the submission and no data row
is ever appended to the log (at most the absent log file is created bearing
only its header row, when the final workbook save fails); but effects already
performed are not rolled back — the file and directory lists only grow. -/
theorem C4_no_rollback (inp : FormInput) (env : Env) (dt rt : Str) (st : FsState)
    (e : Err) (st' : FsState) (h : on_run inp env dt rt st = (.error e, st')) :
    (st'.log = st.log ∨ (st.log = none ∧ st'.log = some [headerRow])) ∧
    st.files <+: st'.files ∧ st.dirs <+: st'.dirs :=
  on_run_error_growth inp env dt rt st e st' h

/-- Witness for C4 at the concrete after-image failure. -/
theorem C4_no_rollback_witness :
    (stC4Final.log = st0.log ∨ (st0.log = none ∧ stC4Final.log = some [headerRow])) ∧
    st0.files <+: stC4Final.files ∧ st0.dirs <+: stC4Final.dirs :=
  C4_no_rollback inpOk envAfterFail dt0 rt0 st0 .unexpected stC4Final (by decide)

/-- Claim C5 (confirmed): the customer identifier must contain a digit and
may contain only digits, hyphens and spaces; either violation rejects the
submission with the state untouched (before any file or log write), and an
accepted identifier yields the digit-only customer number. -/
theorem C5_customer_checks (inp : FormInput) (env : Env) (dt rt : Str) (st : FsState) :
    ((effective_customer inp).filter Char.isDigit = [] →
      isErr (on_run inp env dt rt st) = true ∧ (on_run inp env dt rt st).2 = st) ∧
    ((effective_customer inp).any badCharB = true →
      isErr (on_run inp env dt rt st) = true ∧ (on_run inp env dt rt st).2 = st) ∧
    (∀ r st', on_run inp env dt rt st = (.ok r, st') →
      r.customerNo = (effective_customer inp).filter Char.isDigit ∧
      (effective_customer inp).filter Char.isDigit ≠ []) := by
  refine ⟨?_, ?_, ?_⟩
  · intro hd
    exact on_run_of_validate_err inp env dt rt st (fun hpass => hpass.1.2.2.1 hd)
  · intro hb
    exact on_run_of_validate_err inp env dt rt st (fun hpass => hpass.1.2.2.2.1 hb)
  · intro r st' h
    obtain ⟨hr, hval, -⟩ := on_run_ok_shape inp env dt rt st r st' h
    subst hr
    exact ⟨rfl, hval.1.1.2.2.1⟩

/-- Witness for C5 at the identifier "12a" (digit present, letter present). -/
theorem C5_customer_checks_witness :
    isErr (on_run inpC5bad envAllOk dt0 rt0 st0) = true ∧
    (on_run inpC5bad envAllOk dt0 rt0 st0).2 = st0 :=
  (C5_customer_checks inpC5bad envAllOk dt0 rt0 st0).2.1 (by decide)

/-- Claim C6 (confirmed): with the sentinel "other" breed selected an empty
free-text breed rejects the submission; a successful submission records the
free-text value under the sentinel and the selected list value verbatim
otherwise (list values are pre-stripped by the loader). -/
theorem C6_breed_selection (inp : FormInput) (env : Env) (dt rt : Str) (st : FsState) :
    (pyStrip inp.breedSel = sentinelBreed → pyStrip inp.breedOther = [] →
      isErr (on_run inp env dt rt st) = true) ∧
    (∀ r st', on_run inp env dt rt st = (.ok r, st') →
      (pyStrip inp.breedSel = sentinelBreed →
        r.breed = pyStrip inp.breedOther ∧ r.breed ≠ []) ∧
      (∀ lines, inp.breedSel ∈ load_breeds lines → inp.breedSel ≠ sentinelBreed →
        r.breed = inp.breedSel)) := by
  constructor
  · intro hsel hother
    exact (on_run_of_validate_err inp env dt rt st
      (fun hp => hp.1.2.2.2.2 ⟨hsel, hother⟩)).1
  · intro r st' h
    obtain ⟨hr, hval, -⟩ := on_run_ok_shape inp env dt rt st r st' h
    subst hr
    constructor
    · intro hsel
      have h5 := hval.1.1.2.2.2.2
      constructor
      · show derived_breed inp = _
        unfold derived_breed
        rw [if_pos hsel]
      · show derived_breed inp ≠ []
        unfold derived_breed
        rw [if_pos hsel]
        intro hemp
        exact h5 ⟨hsel, hemp⟩
    · intro lines hmem hne
      have hfix := load_breeds_strip hmem
      show derived_breed inp = _
      unfold derived_breed
      rw [hfix, if_neg hne]

/-- Witness for C6: blank free-text is rejected, "Mix" is recorded. -/
theorem C6_breed_selection_witness :
    isErr (on_run inpBreedBad envAllOk dt0 rt0 st0) = true ∧
    (match (on_run inpMix envAllOk dt0 rt0 st0).1 with
      | .ok r => r.breed
      | .error _ => []) = "Mix".toList := by
  refine ⟨(C6_breed_selection inpBreedBad envAllOk dt0 rt0 st0).1 (by decide) (by decide), ?_⟩
  decide

/-- Claim C7 (confirmed): a non-empty payment field reducing to no digit at
all rejects the submission with the payment-specific reason; a non-empty
valid field is parsed from its digit characters; an empty field records 0. -/
theorem C7_payment_amount (inp : FormInput) (env : Env) (dt rt : Str) (st : FsState) :
    (pyStrip inp.paymentDisplay ≠ [] →
      (pyStrip inp.paymentDisplay).filter Char.isDigit = [] →
      isErr (on_run inp env dt rt st) = true ∧
      (passes_pre_payment inp → on_run inp env dt rt st = (.error .invalidPayment, st))) ∧
    (∀ r st', on_run inp env dt rt st = (.ok r, st') →
      r.paymentAmount = derived_payment inp ∧
      (pyStrip inp.paymentDisplay = [] → r.paymentAmount = 0) ∧
      (pyStrip inp.paymentDisplay ≠ [] →
        r.paymentAmount = natOfDigits ((pyStrip inp.paymentDisplay).filter Char.isDigit))) := by
  constructor
  · intro hne hdig
    constructor
    · exact (on_run_of_validate_err inp env dt rt st (fun hp => hp.2 ⟨hne, hdig⟩)).1
    · intro hpre
      exact on_run_validate_error inp env dt rt st _
        (validate_invalid_payment inp hpre ⟨hne, hdig⟩)
  · intro r st' h
    obtain ⟨hr, -, -⟩ := on_run_ok_shape inp env dt rt st r st' h
    subst hr
    refine ⟨rfl, ?_, ?_⟩
    · intro he
      show derived_payment inp = 0
      unfold derived_payment
      rw [if_pos he]
    · intro hne
      show derived_payment inp = _
      unfold derived_payment
      rw [if_neg hne]

/-- Witness for C7: "abc" rejected with the payment reason; empty gives 0. -/
theorem C7_payment_amount_witness :
    on_run inpPayBad envAllOk dt0 rt0 st0 = (.error .invalidPayment, st0) ∧
    recOk.paymentAmount = 0 := by
  refine ⟨((C7_payment_amount inpPayBad envAllOk dt0 rt0 st0).1
    (by decide) (by decide)).2 (by decide), ?_⟩
  exact ((C7_payment_amount inpOk envAllOk dt0 rt0 st0).2 recOk stOkFinal
    (by decide)).2.1 (by decide)

/-- Log projection of the success state. -/
theorem success_state_log (inp : FormInput) (dt rt : Str) (st : FsState) :
    (success_state inp dt rt st).log =
      some ((ensure_excel_file st.log).getD [] ++ [row_of (derived_record inp dt rt)]) := by
  unfold success_state
  dsimp only
  rw [save_log, save_log, makedirs_log]

/-- Claim C8 (confirmed): every successful submission appends exactly one
row, in the fixed 13-column order, to the log; an absent log is first
created with the fixed header row; and no run ever removes or alters rows
already present (append-only). -/
theorem C8_log_append (inp : FormInput) (env : Env) (dt rt : Str) (st : FsState) :
    (∀ r st', on_run inp env dt rt st = (.ok r, st') →
      st'.log = some ((ensure_excel_file st.log).getD [] ++ [row_of r]) ∧
      (st.log = none → st'.log = some [headerRow, row_of r]) ∧
      row_of r =
        [Cell.s rt, Cell.s r.customerNo, Cell.s r.ownerName, Cell.s r.dogName,
         Cell.s r.breed, Cell.s r.styleToday, Cell.s r.requirements, Cell.s r.notes,
         Cell.s r.aftercare, Cell.n r.paymentAmount, Cell.s r.paymentState,
         Cell.s r.nameBefore, Cell.s r.nameAfter] ∧
      headerRow.length = 13 ∧ (row_of r).length = 13) ∧
    (st.log.getD []) <+: ((on_run inp env dt rt st).2.log.getD []) := by
  constructor
  · intro r st' h
    obtain ⟨hr, -, hstate⟩ := on_run_ok_shape inp env dt rt st r st' h
    subst hr
    subst hstate
    refine ⟨success_state_log inp dt rt st, ?_, rfl, rfl, rfl⟩
    intro hnone
    rw [success_state_log, hnone]
    rfl
  · cases hrun : on_run inp env dt rt st with
    | mk res stF =>
      dsimp only
      cases res with
      | ok r =>
        obtain ⟨-, -, hstate⟩ := on_run_ok_shape inp env dt rt st r stF hrun
        subst hstate
        rw [success_state_log]
        cases hlog : st.log with
        | none => simp
        | some rows =>
          simp only [ensure_excel_file, Option.getD_some]
          exact List.prefix_append _ _
      | error e =>
        obtain ⟨hlog, -, -⟩ := on_run_error_growth inp env dt rt st e stF hrun
        rcases hlog with hlog | ⟨hnone, hlog⟩
        · rw [hlog]
        · rw [hnone, hlog]
          simp

/-- Witness for C8 at the concrete success over an absent log. -/
theorem C8_log_append_witness :
    stOkFinal.log = some [headerRow, row_of recOk] ∧ headerRow.length = 13 := by
  have h := (C8_log_append inpOk envAllOk dt0 rt0 st0).1 recOk stOkFinal (by decide)
  exact ⟨h.2.1 rfl, h.2.2.2.1⟩

/-- Claim C9 (confirmed): an accepted payment is recorded non-negative; all
non-digit characters, a leading minus sign included, are discarded before
parsing, so "-500" is recorded as 500. -/
theorem C9_payment_nonnegative (inp : FormInput) (env : Env) (dt rt : Str) (st : FsState)
    (r : Record) (st' : FsState) (h : on_run inp env dt rt st = (.ok r, st')) :
    (0 : Int) ≤ (r.paymentAmount : Int) ∧
    (pyStrip inp.paymentDisplay ≠ [] →
      r.paymentAmount = natOfDigits ((pyStrip inp.paymentDisplay).filter Char.isDigit)) ∧
    (pyStrip inp.paymentDisplay = "-500".toList → r.paymentAmount = 500) := by
  obtain ⟨hr, -, -⟩ := on_run_ok_shape inp env dt rt st r st' h
  subst hr
  refine ⟨Int.natCast_nonneg _, ?_, ?_⟩
  · intro hne
    show derived_payment inp = _
    unfold derived_payment
    rw [if_neg hne]
  · intro h500
    show derived_payment inp = 500
    unfold derived_payment
    rw [h500]
    decide

/-- Witness for C9 at the payment field "-500". -/
theorem C9_payment_nonnegative_witness :
    (0 : Int) ≤ (recC9.paymentAmount : Int) ∧ recC9.paymentAmount = 500 := by
  have h := C9_payment_nonnegative inpC9 envAllOk dt0 rt0 st0 recC9 stC9Final (by decide)
  exact ⟨h.1, h.2.2 (by decide)⟩

/-- A customer field equal to the placeholder text but typed by the operator
(foreground not gray) never trips the identity or customer-number guards. -/
theorem validate_not_customer_err (inp : FormInput)
    (heff : effective_customer inp = placeholderStr)
    (hd : pyStrip inp.dogName ≠ []) (ho : pyStrip inp.ownerName ≠ []) :
    validate inp ≠ .error .missingIdentity ∧
    validate inp ≠ .error .customerNoDigit ∧
    validate inp ≠ .error .customerBadChar := by
  unfold validate
  rw [heff]
  split_ifs with h1 h2 h3 h4 h5 h6
  · exact ⟨by simp, by simp, by simp⟩
  · rcases h2 with h | h | h
    · exact absurd h hd
    · exact absurd h ho
    · exact absurd h (by decide)
  · exact absurd h3 (by decide)
  · exact absurd h4 (by decide)
  · exact ⟨by simp, by simp, by simp⟩
  · exact ⟨by simp, by simp, by simp⟩
  · exact ⟨by simp, by simp, by simp⟩

/-- Claim C10 (confirmed): treating the placeholder as empty requires both
the exact text and the gray flag; a deliberately typed "010-0000-0000"
(foreground not gray) is kept, passes the customer guards, and yields
customer number "01000000000". -/
theorem C10_placeholder_typed (inp : FormInput) (env : Env) (dt rt : Str) (st : FsState)
    (hraw : pyStrip inp.customerRaw = placeholderStr) (hfg : inp.customerFg ≠ grayStr) :
    effective_customer inp = placeholderStr ∧
    (effective_customer inp).filter Char.isDigit = "01000000000".toList ∧
    (pyStrip inp.dogName ≠ [] → pyStrip inp.ownerName ≠ [] →
      (on_run inp env dt rt st).1 ≠ .error .missingIdentity ∧
      (on_run inp env dt rt st).1 ≠ .error .customerNoDigit ∧
      (on_run inp env dt rt st).1 ≠ .error .customerBadChar) ∧
    (∀ r st', on_run inp env dt rt st = (.ok r, st') →
      r.customerNo = "01000000000".toList) := by
  have heff : effective_customer inp = placeholderStr := by
    simp only [effective_customer]
    rw [hraw]
    rw [if_neg]
    intro hc
    exact hfg hc.2
  have hdig : (effective_customer inp).filter Char.isDigit = "01000000000".toList := by
    rw [heff]
    decide
  refine ⟨heff, hdig, ?_, ?_⟩
  · intro hd ho
    have hne := validate_not_customer_err inp heff hd ho
    cases hv : validate inp with
    | error e2 =>
      rw [on_run_validate_error inp env dt rt st e2 hv]
      dsimp only
      refine ⟨?_, ?_, ?_⟩ <;> intro hc <;> (injection hc with hc2; rw [hc2] at hv)
      exacts [hne.1 hv, hne.2.1 hv, hne.2.2 hv]
    | ok u =>
      unfold on_run
      rw [hv]
      dsimp only
      split_ifs <;> exact ⟨by simp, by simp, by simp⟩
  · intro r st' h
    obtain ⟨hr, -, -⟩ := on_run_ok_shape inp env dt rt st r st' h
    subst hr
    show (effective_customer inp).filter Char.isDigit = _
    exact hdig

/-- Witness for C10 at the concrete typed-placeholder submission. -/
theorem C10_placeholder_typed_witness :
    effective_customer inpC10 = placeholderStr ∧
    (effective_customer inpC10).filter Char.isDigit = "01000000000".toList ∧
    isErr (on_run inpC10 envAllOk dt0 rt0 st0) = false := by
  have h := C10_placeholder_typed inpC10 envAllOk dt0 rt0 st0 (by decide) (by decide)
  exact ⟨h.1, h.2.1, by decide⟩

end GuestBook
